import Mathlib

/-!
Verification development for the rule-file dialect converter
(`src/mapper.ts`, `src/types.ts` of the cursor-windsurf-convert repository).

The engine converts metadata ("front-matter") between two rule-file
dialects: dialect A ("cursor", boolean `alwaysApply` based) and dialect B
("windsurf", enum `trigger` based).  The shallow embedding below translates
the mapper module: scalar values, the typed front-matter views, the two
field mappers, format detection, the front-matter parser/serializer and the
conversion orchestrator.  JavaScript string truthiness (empty string is
falsy) is modelled explicitly where the source relies on it.

The `gray-matter` and `js-yaml` libraries are external dependencies of the
repository and are not part of its sources; the block splitting and scalar
rules they provide are modelled from the specification (sections 4.1 and
4.2), as marked on the corresponding definitions.
-/

/-- Scalar values appearing in parsed YAML front-matter, as produced by the
JSON-schema YAML parse used in `parseRuleFileContent`. -/
inductive JValue
  | str (s : String)
  | bool (b : Bool)
  | num (n : Int)
  | null
  deriving DecidableEq, Repr

/-- A parsed front-matter block: keys with scalar values, in insertion
order (JavaScript objects preserve insertion order). -/
abbrev Mapping := List (String × JValue)

/-- Error codes of `ConversionError` (`src/types.ts`). -/
inductive ConversionErrorCode
  | E001 | E002 | E003 | E004 | E01 | E02 | E03
  deriving DecidableEq, Repr

/-- The typed error thrown by the engine (`src/types.ts`, class
`ConversionError`): a message plus an optional machine-checkable code. -/
structure ConversionError where
  message : String
  code : Option ConversionErrorCode
  deriving DecidableEq, Repr

/-- Typed view of dialect-A front-matter (`CursorFrontMatter` in
`src/types.ts`): the three recognized fields plus passthrough keys.
The `rest` mapping holds every key other than the three recognized ones,
mirroring the destructuring `const { alwaysApply, description, globs,
...rest }` in the source. -/
structure CursorFrontMatter where
  alwaysApply : Option Bool
  description : Option String
  globs : Option String
  rest : Mapping
  deriving DecidableEq, Repr

/-- Typed view of dialect-B front-matter (`WindsurfFrontMatter` in
`src/types.ts`).  `trigger` is kept as a raw string so that unrecognized
runtime trigger values (reachable through the cast in the orchestrator)
are representable. -/
structure WindsurfFrontMatter where
  trigger : String
  description : Option String
  globs : Option String
  rest : Mapping
  deriving DecidableEq, Repr

/-- Conversion direction (`src/types.ts`): `cw` is cursor-to-windsurf
(A to B), `wc` is windsurf-to-cursor (B to A). -/
inductive ConversionDirection
  | cw | wc
  deriving DecidableEq, Repr

/-- Result of format detection (`detectFormat` in `src/mapper.ts`). -/
inductive RuleFormat
  | cursor | windsurf | unknown
  deriving DecidableEq, Repr

/-- JavaScript truthiness of an optional string field: present and
non-empty.  The source tests fields with `if (description)` and
`if (globs)`, for which the empty string is falsy. -/
def strTruthy : Option String → Bool
  | some s => s != ""
  | none => false

/-- The value the mappers carry over for an optional companion field: the
field itself when truthy, absent otherwise.  This names the source's
pattern `if (field) { target.field = field }` followed by the deletion of
`undefined` fields. -/
def truthyOr (o : Option String) : Option String :=
  if strTruthy o then o else none

deriving instance DecidableEq for Except

/-- Boolean test for `Except` success, used to state error-behaviour
claims. -/
def exceptIsOk {ε α : Type} : Except ε α → Bool
  | .ok _ => true
  | .error _ => false

/-- Maps Cursor front-matter to Windsurf front-matter
(`mapCursorToWindsurf`, `src/mapper.ts` lines 245-293).  The branch order
is the source's: `alwaysApply === true` first, then truthy `globs`, then
truthy `description`, else `manual`.  Fields that the source leaves unset
or deletes (the `undefined` cleanup) are `none` here. -/
def mapCursorToWindsurf (cursorFm : CursorFrontMatter) : WindsurfFrontMatter :=
  if cursorFm.alwaysApply = some true then
    { trigger := "always_on"
      description := truthyOr cursorFm.description
      globs := truthyOr cursorFm.globs
      rest := cursorFm.rest }
  else if strTruthy cursorFm.globs then
    { trigger := "glob"
      description := truthyOr cursorFm.description
      globs := cursorFm.globs
      rest := cursorFm.rest }
  else if strTruthy cursorFm.description then
    { trigger := "model_decision"
      description := cursorFm.description
      globs := none
      rest := cursorFm.rest }
  else
    { trigger := "manual"
      description := none
      globs := none
      rest := cursorFm.rest }

/-- Maps Windsurf front-matter to Cursor front-matter
(`mapWindsurfToCursor`, `src/mapper.ts` lines 301-365).  The switch on
`trigger` is translated as an if-chain; after the switch the source copies
`description` when truthy and the trigger is not `model_decision`, and
`globs` when truthy and the trigger is not `glob` (lines 346-352). -/
def mapWindsurfToCursor (windsurfFm : WindsurfFrontMatter) :
    Except ConversionError CursorFrontMatter :=
  if windsurfFm.trigger = "always_on" then
    .ok { alwaysApply := some true
          description := truthyOr windsurfFm.description
          globs := truthyOr windsurfFm.globs
          rest := windsurfFm.rest }
  else if windsurfFm.trigger = "manual" then
    .ok { alwaysApply := some false
          description := truthyOr windsurfFm.description
          globs := truthyOr windsurfFm.globs
          rest := windsurfFm.rest }
  else if windsurfFm.trigger = "glob" then
    if strTruthy windsurfFm.globs then
      .ok { alwaysApply := some false
            description := truthyOr windsurfFm.description
            globs := windsurfFm.globs
            rest := windsurfFm.rest }
    else
      .error { message := "Windsurf 'glob' trigger missing 'globs' field."
               code := some ConversionErrorCode.E02 }
  else if windsurfFm.trigger = "model_decision" then
    if strTruthy windsurfFm.description then
      .ok { alwaysApply := some false
            description := windsurfFm.description
            globs := truthyOr windsurfFm.globs
            rest := windsurfFm.rest }
    else
      .error { message := "Windsurf 'model_decision' trigger missing 'description' field."
               code := some ConversionErrorCode.E02 }
  else
    .error { message := "Unknown Windsurf trigger type: " ++ windsurfFm.trigger
             code := some ConversionErrorCode.E02 }

/-- Decides whether `pat` is a prefix of `l` (helper for substring
search on character lists). -/
def isPrefixList (pat l : List Char) : Bool :=
  match pat, l with
  | [], _ => true
  | _ :: _, [] => false
  | p :: ps, c :: cs => p = c && isPrefixList ps cs

/-- Finds the first occurrence of `pat` in `l`, returning the characters
before it and the characters after it. -/
def findSplit (pat : List Char) : List Char → Option (List Char × List Char)
  | [] => if isPrefixList pat [] then some ([], []) else none
  | c :: cs =>
    if isPrefixList pat (c :: cs) then some ([], (c :: cs).drop pat.length)
    else
      match findSplit pat cs with
      | some (before, after) => some (c :: before, after)
      | none => none

/-- Substring test, modelling JavaScript's `String.prototype.includes`. -/
def containsSubstr (s pat : String) : Bool :=
  (findSplit pat.data s.data).isSome

/-- Splits a character list at every occurrence of the character `c`,
modelling splitting text into lines at newlines. -/
def splitChar (c : Char) : List Char → List (List Char)
  | [] => [[]]
  | x :: xs =>
    if x = c then [] :: splitChar c xs
    else
      match splitChar c xs with
      | h :: r => (x :: h) :: r
      | [] => [[x]]

/-- Removes leading and trailing whitespace from a character list. -/
def trimChars (l : List Char) : List Char :=
  ((l.dropWhile Char.isWhitespace).reverse.dropWhile Char.isWhitespace).reverse

/-- The first 512 characters of a string, modelling
`fileContent.substring(0, Math.min(fileContent.length, 512))` in
`detectFormat`. -/
def take512 (s : String) : String :=
  String.mk (s.data.take 512)

/-- Tests whether an optional scalar holds an actual boolean, modelling
`typeof data[CURSOR_ALWAYS_APPLY_KEY] === 'boolean'`. -/
def isBoolValue : Option JValue → Bool
  | some (.bool _) => true
  | _ => false

/-- Detects the format of a rule file (`detectFormat`, `src/mapper.ts`
lines 198-237), given the raw text and the parsed front-matter mapping
(the orchestrator always passes the mapping it already parsed).
Precedence: literal `trigger:` in the first 512 raw characters, then the
`trigger` key under any value, then a boolean `alwaysApply`, then presence
of `globs` or `description`, else unknown. -/
def detectFormat (fileContent : String) (data : Mapping) : RuleFormat :=
  if containsSubstr (take512 fileContent) "trigger:" then .windsurf
  else if (List.lookup "trigger" data).isSome then .windsurf
  else if isBoolValue (List.lookup "alwaysApply" data) then .cursor
  else if (List.lookup "globs" data).isSome || (List.lookup "description" data).isSome then .cursor
  else .unknown

/-- Renders a scalar the way the engine's string interpolation and YAML
dump render it: strings plainly, booleans and numbers as literals, null
as `null`. -/
def jDisplay : JValue → String
  | .str s => s
  | .bool true => "true"
  | .bool false => "false"
  | .num n => toString n
  | .null => "null"

/-- JavaScript truthiness of a scalar: empty string, `false`, `0` and
`null` are falsy. -/
def jTruthy : JValue → Bool
  | .str s => s != ""
  | .bool b => b
  | .num n => n != 0
  | .null => false

/-- Natural number denoted by a list of decimal digit characters. -/
def digitsToNat : List Char → Nat → Nat
  | [], acc => acc
  | c :: cs, acc => digitsToNat cs (acc * 10 + (c.toNat - 48))

/-- Parses one trimmed scalar token of the front-matter block.  Modelled
from the spec: the repository delegates scalar parsing to `js-yaml` with
the JSON schema (so only `true`, `false` and `null` are non-string
keywords, digit runs are numbers, quoted strings lose their quotes, and
everything else stays a string). -/
def parseScalar (l : List Char) : JValue :=
  if l = [] then .null
  else if l = "true".data then .bool true
  else if l = "false".data then .bool false
  else if l = "null".data then .null
  else if l.all Char.isDigit then .num (digitsToNat l 0)
  else if 2 ≤ l.length ∧ l.head? = some '\x27' ∧ l.getLast? = some '\x27' then
    .str (String.mk ((l.drop 1).dropLast))
  else if 2 ≤ l.length ∧ l.head? = some '"' ∧ l.getLast? = some '"' then
    .str (String.mk ((l.drop 1).dropLast))
  else .str (String.mk l)

/-- Parses one line of the front-matter block into an optional key/value
pair.  Blank lines and `#` comment lines yield nothing; a line without a
colon is a YAML syntax error, which `parseRuleFileContent` surfaces as a
`ConversionError` with code `E03`. -/
def parseBlockLine (l : List Char) : Except ConversionError (Option (String × JValue)) :=
  if trimChars l = [] then .ok none
  else if (trimChars l).head? = some '#' then .ok none
  else
    match findSplit [':'] (trimChars l) with
    | some (k, v) => .ok (some (String.mk (trimChars k), parseScalar (trimChars v)))
    | none =>
      .error { message := "Invalid YAML front-matter. A colon is likely missing or there is a general syntax error."
               code := some ConversionErrorCode.E03 }

/-- Parses every line of the front-matter block, keeping insertion
order. -/
def parseBlock : List (List Char) → Except ConversionError Mapping
  | [] => .ok []
  | l :: ls =>
    match parseBlockLine l with
    | .error e => .error e
    | .ok none => parseBlock ls
    | .ok (some kv) =>
      match parseBlock ls with
      | .error e => .error e
      | .ok m => .ok (kv :: m)

/-- Front-matter block characters of a delimited rule file: the
characters between the opening delimiter line and the first following
line starting with the closing delimiter, the whole remainder when the
block is unclosed.  Part of `parseRuleFileContent`; see its comment.
Parses a rule file string into front-matter and content
(`parseRuleFileContent`, `src/mapper.ts` lines 22-126).  The block
splitting is modelled from the spec: `gray-matter`, which performs it in
the repository, is an external dependency.  A block is opened by `---`
on the first line; the first following line starting with `---` closes
it; the body is everything after the closing delimiter minus at most one
leading newline; text without an opening delimiter is all body with an
empty mapping; an unclosed block makes the whole remainder front-matter
with an empty body.  Any syntax error in the block is surfaced as a
`ConversionError` with code `E03`, as in the source's catch-all handler.
The source's unquoted-glob pre/post-processing shim is a no-op in this
model because `parseScalar` already keeps the raw unquoted text of the
`globs` line as the field's value. -/
def frontMatterBlock (cs : List Char) : List Char :=
  match findSplit "\n---".data cs with
  | some (block, _) => block
  | none => cs

/-- The characters after the closing delimiter, minus at most one leading
newline; an unclosed block leaves an empty body (companion of
`frontMatterBlock`). -/
def frontMatterBody (cs : List Char) : List Char :=
  match findSplit "\n---".data cs with
  | some (_, after) => if after.head? = some '\n' then after.drop 1 else after
  | none => []

def parseRuleFileContent (fileContent : String) :
    Except ConversionError (Mapping × String) :=
  if isPrefixList "---\n".data fileContent.data then
    match parseBlock (splitChar '\n' (frontMatterBlock (fileContent.data.drop 4))) with
    | .ok m => .ok (m, String.mk (frontMatterBody (fileContent.data.drop 4)))
    | .error e => .error e
  else
    .ok ([], fileContent)

/-- Rewrites every CRLF sequence to a lone LF, modelling the source's
`rawOutput.replace(/\r\n/g, '\n')` (`src/mapper.ts` line 186). -/
def crlfNormAux : List Char → List Char
  | [] => []
  | [c] => [c]
  | c :: d :: t =>
    if c = '\r' ∧ d = '\n' then '\n' :: crlfNormAux t
    else c :: crlfNormAux (d :: t)

/-- String form of `crlfNormAux`. -/
def crlfNormalize (s : String) : String :=
  String.mk (crlfNormAux s.data)

/-- Appends a newline unless the string already ends in one, modelling
gray-matter's `newline` helper applied to the content. -/
def ensureTrailingNewline (s : String) : String :=
  if s.data.getLast? = some '\n' then s else s ++ "\n"

/-- Removes every trailing newline character. -/
def stripTrailingNewlines (s : String) : String :=
  String.mk ((s.data.reverse.dropWhile (· = '\n')).reverse)

/-- Renders one front-matter entry as a YAML line.  Plain style is used
for every scalar, matching the serializer's plain-string dump options and
its post-processing that unquotes the `globs` line. -/
def renderEntry (kv : String × JValue) : String :=
  kv.1 ++ ": " ++ jDisplay kv.2 ++ "\n"

/-- Renders a front-matter mapping as a YAML block, one line per entry in
insertion order. -/
def dumpMapping (m : Mapping) : String :=
  String.join (m.map renderEntry)

/-- Assembles front-matter and content, modelled from the spec (section
4.2) because `matter.stringify` is an external dependency: an empty
mapping yields exactly the body with exactly one trailing newline; a
non-empty mapping yields delimiter lines around the dumped entries
followed by the body with a newline appended when missing. -/
def matterStringify (frontMatter : Mapping) (content : String) : String :=
  if frontMatter.isEmpty then stripTrailingNewlines content ++ "\n"
  else "---\n" ++ dumpMapping frontMatter ++ "---\n" ++ ensureTrailingNewline content

/-- Serializes front-matter and content back into a rule file string
(`serializeRuleFile`, `src/mapper.ts` lines 134-187): the assembled text
with every CRLF normalized to LF.  The source's `globs` unquoting
post-pass is a no-op here because `renderEntry` already emits plain
unquoted scalars. -/
def serializeRuleFile (frontMatter : Mapping) (content : String) : String :=
  crlfNormalize (matterStringify frontMatter content)

/-- Sets a key in a mapping with JavaScript object-assignment semantics:
an existing key keeps its position and receives the new value, a new key
is appended. -/
def setKey (m : Mapping) (k : String) (v : JValue) : Mapping :=
  if (List.lookup k m).isSome then
    m.map (fun kv => if kv.1 = k then (k, v) else kv)
  else m ++ [(k, v)]

/-- Removes every entry with one of the given keys, modelling object
destructuring into `...rest`. -/
def removeKeys (m : Mapping) (ks : List String) : Mapping :=
  m.filter (fun kv => !(ks.contains kv.1))

/-- Typed view of a raw mapping as Cursor front-matter, modelling the
`rawFrontMatter as CursorFrontMatter` cast plus the destructuring in
`mapCursorToWindsurf`: `alwaysApply` only counts when it is an actual
boolean (the source compares it with `=== true`), `description` and
`globs` keep their rendered value when truthy, and all three keys leave
the passthrough rest. -/
def asCursorFrontMatter (m : Mapping) : CursorFrontMatter :=
  { alwaysApply :=
      match List.lookup "alwaysApply" m with
      | some (.bool b) => some b
      | _ => none
    description :=
      match List.lookup "description" m with
      | some v => if jTruthy v then some (jDisplay v) else none
      | none => none
    globs :=
      match List.lookup "globs" m with
      | some v => if jTruthy v then some (jDisplay v) else none
      | none => none
    rest := removeKeys m ["alwaysApply", "description", "globs"] }

/-- Typed view of a raw mapping as Windsurf front-matter, modelling the
`rawFrontMatter as WindsurfFrontMatter` cast plus the destructuring in
`mapWindsurfToCursor`.  A missing trigger key behaves as the string
`undefined`, which is how JavaScript renders it in the unknown-trigger
error message and how it falls through every switch case. -/
def asWindsurfFrontMatter (m : Mapping) : WindsurfFrontMatter :=
  { trigger :=
      match List.lookup "trigger" m with
      | some v => jDisplay v
      | none => "undefined"
    description :=
      match List.lookup "description" m with
      | some v => if jTruthy v then some (jDisplay v) else none
      | none => none
    globs :=
      match List.lookup "globs" m with
      | some v => if jTruthy v then some (jDisplay v) else none
      | none => none
    rest := removeKeys m ["trigger", "description", "globs"] }

/-- Raw mapping produced by serializing Windsurf front-matter: the
passthrough keys first, then `trigger`, `description` and `globs`
assigned in that order with object-assignment semantics, matching how
`mapCursorToWindsurf` builds its result object. -/
def WindsurfFrontMatter.toMapping (w : WindsurfFrontMatter) : Mapping :=
  let m := setKey w.rest "trigger" (.str w.trigger)
  let m := match w.description with
    | some d => setKey m "description" (.str d)
    | none => m
  match w.globs with
  | some g => setKey m "globs" (.str g)
  | none => m

/-- Raw mapping produced by serializing Cursor front-matter: the
passthrough keys first, then `alwaysApply`, `description` and `globs`
assigned in that order, matching how `mapWindsurfToCursor` builds its
result object. -/
def CursorFrontMatter.toMapping (c : CursorFrontMatter) : Mapping :=
  let m := match c.alwaysApply with
    | some b => setKey c.rest "alwaysApply" (.bool b)
    | none => c.rest
  let m := match c.description with
    | some d => setKey m "description" (.str d)
    | none => m
  match c.globs with
  | some g => setKey m "globs" (.str g)
  | none => m

/-- Rendered name of a detected format, as interpolated into the
orchestrator's mismatch error message. -/
def formatName : RuleFormat → String
  | .cursor => "cursor"
  | .windsurf => "windsurf"
  | .unknown => "unknown"

/-- Converts the content of a rule file from one format to the other
(`convertRuleContent`, `src/mapper.ts` lines 376-420): parse, detect
(unless a format is forced), reject unknown or mismatched formats with
code `E01`, apply the matching field mapper, serialize with the unchanged
body.  The optional file-path error context of the source is omitted;
messages follow the no-path form. -/
def convertRuleContent (sourceContent : String) (direction : ConversionDirection)
    (forceFormat : Option RuleFormat) : Except ConversionError String :=
  match parseRuleFileContent sourceContent with
  | .error e => .error e
  | .ok (rawFrontMatter, content) =>
    if forceFormat.getD (detectFormat sourceContent rawFrontMatter) = RuleFormat.unknown then
      .error { message := "Could not determine source format. Use --force if necessary."
               code := some ConversionErrorCode.E01 }
    else if direction = ConversionDirection.cw ∧
        forceFormat.getD (detectFormat sourceContent rawFrontMatter) = RuleFormat.cursor then
      .ok (serializeRuleFile (mapCursorToWindsurf (asCursorFrontMatter rawFrontMatter)).toMapping content)
    else if direction = ConversionDirection.wc ∧
        forceFormat.getD (detectFormat sourceContent rawFrontMatter) = RuleFormat.windsurf then
      match mapWindsurfToCursor (asWindsurfFrontMatter rawFrontMatter) with
      | .ok cursorFm => .ok (serializeRuleFile cursorFm.toMapping content)
      | .error e => .error e
    else
      .error { message :=
                 (if direction = ConversionDirection.cw then "Expected Cursor format but detected "
                  else "Expected Windsurf format but detected ")
                 ++ formatName (forceFormat.getD (detectFormat sourceContent rawFrontMatter))
                 ++ ". Use --force if necessary."
               code := some ConversionErrorCode.E01 }

/-- Companion fields consistent with a dialect-B trigger: `always_on`
allows any, `glob` requires a truthy glob pattern, `model_decision`
requires a truthy description and no truthy glob pattern, and `manual`
requires neither companion to be truthy. -/
def consistentCompanions (w : WindsurfFrontMatter) : Prop :=
  w.trigger = "always_on" ∨
  (w.trigger = "glob" ∧ strTruthy w.globs = true) ∨
  (w.trigger = "model_decision" ∧ strTruthy w.description = true ∧ strTruthy w.globs = false) ∨
  (w.trigger = "manual" ∧ strTruthy w.description = false ∧ strTruthy w.globs = false)

/-- Tests whether a string ends in two newline characters. -/
def endsInTwoNewlines (s : String) : Bool :=
  match s.data.reverse with
  | a :: b :: _ => a = '\n' && b = '\n'
  | _ => false

theorem isPrefixList_refl (l : List Char) : isPrefixList l l = true := by
  induction l with
  | nil => rfl
  | cons c t ih => simp [isPrefixList, ih]

theorem findSplit_isSome_append (a b : List Char) :
    (findSplit b (a ++ b)).isSome = true := by
  induction a with
  | nil =>
    cases b with
    | nil => rfl
    | cons c t => simp [findSplit, isPrefixList_refl]
  | cons c t ih =>
    simp only [List.cons_append]
    unfold findSplit
    split
    · simp
    · split
      · simp
      · simp_all

theorem containsSubstr_append_right (a b : String) :
    containsSubstr (a ++ b) b = true := by
  cases a with
  | mk da =>
    cases b with
    | mk db => exact findSplit_isSome_append da db

/-- Claim C2: `mapWindsurfToCursor` (the B-to-A mapper) fails if and only
if the trigger is `glob` with the `globs` field missing (absent or empty,
matching the code's truthiness test), `model_decision` with the
`description` field missing, or an unrecognized trigger value; each
missing-field failure message names the trigger and the missing field,
the unknown-trigger message names the trigger, and every other dialect-B
input succeeds. -/
theorem mapWindsurfToCursor_fails_iff (w : WindsurfFrontMatter) :
    (exceptIsOk (mapWindsurfToCursor w) = false ↔
      (w.trigger = "glob" ∧ strTruthy w.globs = false) ∨
      (w.trigger = "model_decision" ∧ strTruthy w.description = false) ∨
      w.trigger ∉ (["manual", "always_on", "model_decision", "glob"] : List String))
    ∧ ∀ e, mapWindsurfToCursor w = .error e →
        (w.trigger = "glob" →
          containsSubstr e.message "glob" = true ∧ containsSubstr e.message "globs" = true)
        ∧ (w.trigger = "model_decision" →
          containsSubstr e.message "model_decision" = true ∧
            containsSubstr e.message "description" = true)
        ∧ (w.trigger ∉ (["manual", "always_on", "model_decision", "glob"] : List String) →
          containsSubstr e.message w.trigger = true) := by
  constructor
  · unfold mapWindsurfToCursor
    split_ifs with h1 h2 h3 h4 h5 h6 <;> simp_all [exceptIsOk]
  · intro e he
    unfold mapWindsurfToCursor at he
    split_ifs at he with h1 h2 h3 h4 h5 h6
    · injection he with he'
      subst he'
      refine ⟨fun _ => ⟨by decide, by decide⟩, fun hmd => absurd (h3 ▸ hmd) (by decide), ?_⟩
      intro hmem
      exact absurd (by simp [h3]) hmem
    · injection he with he'
      subst he'
      refine ⟨fun hg => absurd (h5 ▸ hg) (by decide), fun _ => ⟨by decide, by decide⟩, ?_⟩
      intro hmem
      exact absurd (by simp [h5]) hmem
    · injection he with he'
      subst he'
      refine ⟨fun hg => absurd hg h3, fun hmd => absurd hmd h5, ?_⟩
      intro _
      exact containsSubstr_append_right "Unknown Windsurf trigger type: " w.trigger

/-- Witness for C2 at a concrete input: the `glob` trigger with no
`globs` field fails and its message names the trigger and the field. -/
theorem mapWindsurfToCursor_fails_iff_witness :
    exceptIsOk (mapWindsurfToCursor ⟨"glob", none, none, []⟩) = false ∧
    containsSubstr "Windsurf 'glob' trigger missing 'globs' field." "globs" = true :=
  ⟨(mapWindsurfToCursor_fails_iff ⟨"glob", none, none, []⟩).1.mpr (Or.inl ⟨rfl, rfl⟩),
   (((mapWindsurfToCursor_fails_iff ⟨"glob", none, none, []⟩).2
      ⟨"Windsurf 'glob' trigger missing 'globs' field.", some ConversionErrorCode.E02⟩
      (by rfl)).1 rfl).2⟩

/-- Claim C3: `detectFormat` follows the strict precedence: literal
`trigger:` in the first 512 characters of the raw text gives windsurf;
otherwise a `trigger` key in the mapping under any value gives windsurf;
otherwise an `alwaysApply` key with an actual boolean value gives cursor;
otherwise presence of `globs` or `description` gives cursor; otherwise the
format is unknown. -/
theorem detectFormat_precedence (fc : String) (data : Mapping) :
    (containsSubstr (take512 fc) "trigger:" = true →
      detectFormat fc data = RuleFormat.windsurf)
    ∧ (containsSubstr (take512 fc) "trigger:" = false →
      (List.lookup "trigger" data).isSome = true →
      detectFormat fc data = RuleFormat.windsurf)
    ∧ (containsSubstr (take512 fc) "trigger:" = false →
      List.lookup "trigger" data = none →
      isBoolValue (List.lookup "alwaysApply" data) = true →
      detectFormat fc data = RuleFormat.cursor)
    ∧ (containsSubstr (take512 fc) "trigger:" = false →
      List.lookup "trigger" data = none →
      isBoolValue (List.lookup "alwaysApply" data) = false →
      ((List.lookup "globs" data).isSome || (List.lookup "description" data).isSome) = true →
      detectFormat fc data = RuleFormat.cursor)
    ∧ (containsSubstr (take512 fc) "trigger:" = false →
      List.lookup "trigger" data = none →
      isBoolValue (List.lookup "alwaysApply" data) = false →
      List.lookup "globs" data = none → List.lookup "description" data = none →
      detectFormat fc data = RuleFormat.unknown) := by
  refine ⟨?_, ?_, ?_, ?_, ?_⟩
  · intro h1
    simp [detectFormat, h1]
  · intro h1 h2
    simp [detectFormat, h1, h2]
  · intro h1 h2 h3
    simp [detectFormat, h1, h2, h3]
  · intro h1 h2 h3 h4
    simp [detectFormat, h1, h2, h3, h4]
  · intro h1 h2 h3 h4 h5
    simp [detectFormat, h1, h2, h3, h4, h5]

/-- Witness for C3: a text whose first 512 characters contain `trigger:`
is detected as windsurf. -/
theorem detectFormat_precedence_witness :
    containsSubstr (take512 "---\ntrigger: manual\n---\nBody\n") "trigger:" = true ∧
    detectFormat "---\ntrigger: manual\n---\nBody\n" [("trigger", JValue.str "manual")] =
      RuleFormat.windsurf :=
  ⟨by decide,
   (detectFormat_precedence "---\ntrigger: manual\n---\nBody\n"
      [("trigger", JValue.str "manual")]).1 (by decide)⟩

/-- Claim C5: the A-to-B mapper is total.  `mapCursorToWindsurf` is a pure
total function in this embedding, mirroring the absence of any throw in
the source; the theorem records that every input combination maps to
well-formed dialect-B front-matter (one of the four recognized triggers),
and that, at the orchestrator level, a conversion in the A-to-B direction
whose source parses can only succeed — the A-to-B mapping stage never
raises. -/
theorem mapCursorToWindsurf_total :
    (∀ c : CursorFrontMatter,
      (mapCursorToWindsurf c).trigger = "always_on" ∨
      (mapCursorToWindsurf c).trigger = "glob" ∨
      (mapCursorToWindsurf c).trigger = "model_decision" ∨
      (mapCursorToWindsurf c).trigger = "manual")
    ∧ ∀ src fm content, parseRuleFileContent src = .ok (fm, content) →
      exceptIsOk (convertRuleContent src ConversionDirection.cw (some RuleFormat.cursor)) = true := by
  constructor
  · intro c
    unfold mapCursorToWindsurf
    split_ifs <;> simp
  · intro src fm content hparse
    unfold convertRuleContent
    rw [hparse]
    simp [exceptIsOk]

/-- Witness for C5: a parsed dialect-A document converts successfully in
the A-to-B direction, and the empty front-matter maps (to `manual`). -/
theorem mapCursorToWindsurf_total_witness :
    ((mapCursorToWindsurf ⟨none, none, none, []⟩).trigger = "always_on" ∨
     (mapCursorToWindsurf ⟨none, none, none, []⟩).trigger = "glob" ∨
     (mapCursorToWindsurf ⟨none, none, none, []⟩).trigger = "model_decision" ∨
     (mapCursorToWindsurf ⟨none, none, none, []⟩).trigger = "manual") ∧
    exceptIsOk (convertRuleContent "---\nalwaysApply: true\n---\nB"
      ConversionDirection.cw (some RuleFormat.cursor)) = true :=
  ⟨mapCursorToWindsurf_total.1 ⟨none, none, none, []⟩,
   mapCursorToWindsurf_total.2 "---\nalwaysApply: true\n---\nB"
     [("alwaysApply", JValue.bool true)] "B" (by decide)⟩

/-- Counterexample to claim C6: the claim says a `manual` trigger copies
no recognized companion fields B-to-A, with `description` and `globs`
absent from the result even when present in the source; the code copies
both when they are present and truthy. -/
theorem manual_copies_companions_cex :
    mapWindsurfToCursor ⟨"manual", some "desc text", some "src/*.js", []⟩ =
      .ok ⟨some false, some "desc text", some "src/*.js", []⟩ ∧
    (mapWindsurfToCursor ⟨"manual", some "desc text", some "src/*.js", []⟩ ≠
      .ok ⟨some false, none, none, []⟩) := by decide

/-- Claim C6 as amended: for a `manual` trigger the B-to-A mapper sets
`alwaysApply` to false and carries over `description` and `globs`
whenever they are present and non-empty (dropping only absent or empty
ones), exactly as for `always_on`. -/
theorem manual_mapping_amended (w : WindsurfFrontMatter) (h : w.trigger = "manual") :
    mapWindsurfToCursor w = .ok
      { alwaysApply := some false
        description := truthyOr w.description
        globs := truthyOr w.globs
        rest := w.rest } := by
  unfold mapWindsurfToCursor
  rw [h]
  simp

/-- Witness for the amended C6 at a concrete input. -/
theorem manual_mapping_amended_witness :
    mapWindsurfToCursor ⟨"manual", some "d", some "g", []⟩ =
      .ok ⟨some false, some "d", some "g", []⟩ :=
  manual_mapping_amended ⟨"manual", some "d", some "g", []⟩ rfl

/-- Counterexample to claim C7: the claim says the glob trigger takes
priority over an explicit `alwaysApply: true` when both co-occur; the
code's first branch wins, producing `always_on`, not `glob`. -/
theorem alwaysApply_priority_cex :
    (mapCursorToWindsurf ⟨some true, none, some "src/*.js", []⟩).trigger = "always_on" ∧
    (mapCursorToWindsurf ⟨some true, none, some "src/*.js", []⟩).trigger ≠ "glob" := by
  decide

/-- Claim C7 as amended: in the A-to-B direction `alwaysApply: true`
takes priority over a present glob pattern — whenever both co-occur the
result trigger is `always_on` — and the `glob` trigger arises exactly
when `alwaysApply` is not `true` and `globs` is present and
non-empty. -/
theorem alwaysApply_priority_amended (c : CursorFrontMatter) :
    (c.alwaysApply = some true → (mapCursorToWindsurf c).trigger = "always_on")
    ∧ ((mapCursorToWindsurf c).trigger = "glob" ↔
        c.alwaysApply ≠ some true ∧ strTruthy c.globs = true) := by
  unfold mapCursorToWindsurf
  split_ifs with h1 h2 h3 <;> simp_all

/-- Witness for the amended C7 at a concrete input where `alwaysApply:
true` and a glob pattern co-occur. -/
theorem alwaysApply_priority_amended_witness :
    (mapCursorToWindsurf ⟨some true, some "d", some "g", []⟩).trigger = "always_on" :=
  (alwaysApply_priority_amended ⟨some true, some "d", some "g", []⟩).1 rfl

/-- Counterexample to claim C8: content detected as dialect B with a
direction requiring dialect A and the source dialect forced to A does
not fail with a mismatch error — forcing bypasses detection and the
conversion proceeds (here it even succeeds). -/
theorem forced_dialect_bypasses_detection_cex :
    parseRuleFileContent "---\ntrigger: manual\n---\nBody\n" =
      .ok ([("trigger", JValue.str "manual")], "Body\n") ∧
    detectFormat "---\ntrigger: manual\n---\nBody\n" [("trigger", JValue.str "manual")] =
      RuleFormat.windsurf ∧
    convertRuleContent "---\ntrigger: manual\n---\nBody\n" ConversionDirection.cw
      (some RuleFormat.cursor) = .ok "---\ntrigger: manual\n---\nBody\n" := by
  decide

/-- Claim C8 as amended: the mismatch error arises from the effective
source dialect, which is the forced dialect when one is given and the
detected dialect otherwise; with no forced dialect, content detected as B
(windsurf) under a direction requiring A (cursor-to-windsurf) fails with
the mismatch error naming expected Cursor and detected windsurf, with
code E01.  Forcing the dialect to A instead bypasses detection and the
orchestrator proceeds treating the content as A. -/
theorem mismatch_error_amended (src : String) (fm : Mapping) (content : String)
    (hparse : parseRuleFileContent src = .ok (fm, content))
    (hdet : detectFormat src fm = RuleFormat.windsurf) :
    convertRuleContent src ConversionDirection.cw none =
      .error ⟨"Expected Cursor format but detected windsurf. Use --force if necessary.",
              some ConversionErrorCode.E01⟩ := by
  unfold convertRuleContent
  rw [hparse]
  simp [hdet, formatName]

/-- Witness for the amended C8 at a concrete input. -/
theorem mismatch_error_amended_witness :
    convertRuleContent "---\ntrigger: manual\n---\nBody\n" ConversionDirection.cw none =
      .error ⟨"Expected Cursor format but detected windsurf. Use --force if necessary.",
              some ConversionErrorCode.E01⟩ :=
  mismatch_error_amended "---\ntrigger: manual\n---\nBody\n"
    [("trigger", JValue.str "manual")] "Body\n" (by decide) (by decide)

theorem parseBlockLine_error_code (l : List Char) (e : ConversionError)
    (h : parseBlockLine l = .error e) : e.code = some ConversionErrorCode.E03 := by
  unfold parseBlockLine at h
  split_ifs at h
  cases hf : findSplit [':'] (trimChars l) with
  | some kv =>
    rw [hf] at h
    obtain ⟨k, v⟩ := kv
    exact absurd h (by simp)
  | none =>
    rw [hf] at h
    injection h with h'
    subst h'
    rfl

theorem parseBlock_error_code (ls : List (List Char)) (e : ConversionError)
    (h : parseBlock ls = .error e) : e.code = some ConversionErrorCode.E03 := by
  induction ls with
  | nil => exact absurd h (by simp [parseBlock])
  | cons l t ih =>
    unfold parseBlock at h
    cases hl : parseBlockLine l with
    | error e1 =>
      rw [hl] at h
      injection h with h'
      subst h'
      exact parseBlockLine_error_code l e1 hl
    | ok entry =>
      rw [hl] at h
      cases entry with
      | none => exact ih h
      | some kv =>
        cases ht : parseBlock t with
        | error e2 =>
          rw [ht] at h
          injection h with h'
          subst h'
          exact ih ht
        | ok m =>
          rw [ht] at h
          exact absurd h (by simp)

theorem parseRuleFileContent_error_code (s : String) (e : ConversionError)
    (h : parseRuleFileContent s = .error e) : e.code = some ConversionErrorCode.E03 := by
  unfold parseRuleFileContent at h
  split_ifs at h
  cases hb : parseBlock (splitChar '\n' (frontMatterBlock (s.data.drop 4))) with
  | error e1 =>
    rw [hb] at h
    injection h with h'
    subst h'
    exact parseBlock_error_code _ e1 hb
  | ok m =>
    rw [hb] at h
    exact absurd h (by simp)

theorem mapWindsurfToCursor_error_code (w : WindsurfFrontMatter) (e : ConversionError)
    (h : mapWindsurfToCursor w = .error e) : e.code = some ConversionErrorCode.E02 := by
  unfold mapWindsurfToCursor at h
  split_ifs at h <;> (injection h with h'; subst h'; rfl)

/-- Claim C10: every failure of the engine carries a machine-checkable
code identifying its kind: `parseRuleFileContent` only raises code E03,
`mapWindsurfToCursor` only raises code E02, and every error returned by
`convertRuleContent` carries one of the codes E01 (its own detection and
mismatch failures), E02 (propagated mapping failures) or E03 (propagated
parse failures).  In this embedding failures are `Except.error` values of
type `ConversionError`, so no untyped error can escape. -/
theorem error_codes_typed :
    (∀ s e, parseRuleFileContent s = .error e → e.code = some ConversionErrorCode.E03)
    ∧ (∀ w e, mapWindsurfToCursor w = .error e → e.code = some ConversionErrorCode.E02)
    ∧ ∀ src dir force e, convertRuleContent src dir force = .error e →
        e.code = some ConversionErrorCode.E01 ∨ e.code = some ConversionErrorCode.E02 ∨
        e.code = some ConversionErrorCode.E03 := by
  refine ⟨parseRuleFileContent_error_code, mapWindsurfToCursor_error_code, ?_⟩
  intro src dir force e h
  unfold convertRuleContent at h
  cases hp : parseRuleFileContent src with
  | error e1 =>
    rw [hp] at h
    injection h with h'
    subst h'
    exact Or.inr (Or.inr (parseRuleFileContent_error_code src e1 hp))
  | ok pr =>
    obtain ⟨fm, content⟩ := pr
    rw [hp] at h
    simp only [] at h
    by_cases h1 : force.getD (detectFormat src fm) = RuleFormat.unknown
    · rw [if_pos h1] at h
      injection h with h'
      subst h'
      exact Or.inl rfl
    · rw [if_neg h1] at h
      by_cases h2 : dir = ConversionDirection.cw ∧
          force.getD (detectFormat src fm) = RuleFormat.cursor
      · rw [if_pos h2] at h
        exact absurd h (by simp)
      · rw [if_neg h2] at h
        by_cases h3 : dir = ConversionDirection.wc ∧
            force.getD (detectFormat src fm) = RuleFormat.windsurf
        · rw [if_pos h3] at h
          cases hm : mapWindsurfToCursor (asWindsurfFrontMatter fm) with
          | ok c => rw [hm] at h; exact absurd h (by simp)
          | error e2 =>
            rw [hm] at h
            injection h with h'
            subst h'
            exact Or.inr (Or.inl (mapWindsurfToCursor_error_code _ e2 hm))
        · rw [if_neg h3] at h
          injection h with h'
          subst h'
          exact Or.inl rfl

/-- Witness for C10 at concrete failing inputs of each kind. -/
theorem error_codes_typed_witness :
    (ConversionError.mk
      "Invalid YAML front-matter. A colon is likely missing or there is a general syntax error."
      (some ConversionErrorCode.E03)).code = some ConversionErrorCode.E03 ∧
    (ConversionError.mk "Windsurf 'glob' trigger missing 'globs' field."
      (some ConversionErrorCode.E02)).code = some ConversionErrorCode.E02 ∧
    ((ConversionError.mk "Could not determine source format. Use --force if necessary."
      (some ConversionErrorCode.E01)).code = some ConversionErrorCode.E01 ∨
     (ConversionError.mk "Could not determine source format. Use --force if necessary."
      (some ConversionErrorCode.E01)).code = some ConversionErrorCode.E02 ∨
     (ConversionError.mk "Could not determine source format. Use --force if necessary."
      (some ConversionErrorCode.E01)).code = some ConversionErrorCode.E03) :=
  ⟨error_codes_typed.1 "---\nnocolon\n---\nb" _ (by decide),
   error_codes_typed.2.1 ⟨"glob", none, none, []⟩ _ (by decide),
   error_codes_typed.2.2 "hello" ConversionDirection.cw none _ (by decide)⟩

theorem strTruthy_none : strTruthy none = false := rfl

theorem strTruthy_truthyOr (o : Option String) : strTruthy (truthyOr o) = strTruthy o := by
  unfold truthyOr
  cases h : strTruthy o
  · rw [if_neg (by simp)]
    rfl
  · rw [if_pos rfl]
    exact h

theorem truthyOr_idem (o : Option String) : truthyOr (truthyOr o) = truthyOr o := by
  cases h : strTruthy o
  · have h0 : truthyOr o = none := by unfold truthyOr; rw [if_neg (by simp [h])]
    rw [h0]
    rfl
  · have h0 : truthyOr o = o := by unfold truthyOr; rw [if_pos h]
    rw [h0]
    exact h0

/-- Counterexample to claim C1: a dialect-B document with trigger
`manual` and a description round-trips (B to A to B) to a document with
trigger `model_decision` — both conversions succeed and the body
survives, but the effective activation policy changes, so the round trip
does not reproduce the original trigger state. -/
theorem roundTrip_changes_trigger_cex :
    convertRuleContent "---\ntrigger: manual\ndescription: d\n---\nBody\n"
      ConversionDirection.wc none =
      .ok "---\nalwaysApply: false\ndescription: d\n---\nBody\n" ∧
    convertRuleContent "---\nalwaysApply: false\ndescription: d\n---\nBody\n"
      ConversionDirection.cw none =
      .ok "---\ntrigger: model_decision\ndescription: d\n---\nBody\n" ∧
    containsSubstr "---\ntrigger: manual\ndescription: d\n---\nBody\n" "trigger: manual" = true ∧
    containsSubstr "---\ntrigger: model_decision\ndescription: d\n---\nBody\n"
      "trigger: manual" = false := by
  decide

/-- Claim C1 as amended: at the mapping level, converting A to B and then
B to A always succeeds and preserves the effective activation policy (the
round-tripped front-matter has the same A-to-B image as the original);
converting B to A and then A to B succeeds and reproduces the original
trigger exactly when the B-side companion fields are consistent with the
trigger (`always_on`: any; `glob`: truthy globs; `model_decision`: truthy
description and no truthy globs; `manual`: neither companion truthy).
The body is reproduced only up to the serializer's trailing-newline and
CRLF normalizations, not byte-exactly. -/
theorem roundTrip_policy_amended :
    (∀ c : CursorFrontMatter, ∃ c2 : CursorFrontMatter,
      mapWindsurfToCursor (mapCursorToWindsurf c) = .ok c2 ∧
      mapCursorToWindsurf c2 = mapCursorToWindsurf c)
    ∧ ∀ w : WindsurfFrontMatter, consistentCompanions w →
      ∃ c : CursorFrontMatter, mapWindsurfToCursor w = .ok c ∧
        (mapCursorToWindsurf c).trigger = w.trigger := by
  constructor
  · intro c
    by_cases h1 : c.alwaysApply = some true
    · refine ⟨⟨some true, truthyOr c.description, truthyOr c.globs, c.rest⟩, ?_, ?_⟩
      · simp [mapCursorToWindsurf, mapWindsurfToCursor, h1, truthyOr_idem, strTruthy_truthyOr]
      · simp [mapCursorToWindsurf, h1, truthyOr_idem]
    · by_cases h2 : strTruthy c.globs = true
      · refine ⟨⟨some false, truthyOr c.description, c.globs, c.rest⟩, ?_, ?_⟩
        · simp [mapCursorToWindsurf, mapWindsurfToCursor, h1, h2, truthyOr_idem,
            strTruthy_truthyOr]
        · simp [mapCursorToWindsurf, h1, h2, truthyOr_idem]
      · by_cases h3 : strTruthy c.description = true
        · refine ⟨⟨some false, c.description, none, c.rest⟩, ?_, ?_⟩
          · simp [mapCursorToWindsurf, mapWindsurfToCursor, h1, h2, h3, strTruthy_none,
              truthyOr]
          · simp [mapCursorToWindsurf, h1, h2, h3, strTruthy_none]
        · refine ⟨⟨some false, none, none, c.rest⟩, ?_, ?_⟩
          · simp [mapCursorToWindsurf, mapWindsurfToCursor, h1, h2, h3, strTruthy_none,
              truthyOr]
          · simp [mapCursorToWindsurf, h1, h2, h3, strTruthy_none]
  · intro w hcons
    rcases hcons with h | ⟨h, hg⟩ | ⟨h, hd, hg⟩ | ⟨h, hd, hg⟩
    · exact ⟨⟨some true, truthyOr w.description, truthyOr w.globs, w.rest⟩,
        by simp [mapWindsurfToCursor, h], by simp [mapCursorToWindsurf, h]⟩
    · exact ⟨⟨some false, truthyOr w.description, w.globs, w.rest⟩,
        by simp [mapWindsurfToCursor, h, hg], by simp [mapCursorToWindsurf, h, hg]⟩
    · exact ⟨⟨some false, w.description, none, w.rest⟩,
        by simp [mapWindsurfToCursor, h, hd, truthyOr, hg],
        by simp [mapCursorToWindsurf, h, hd, strTruthy_none]⟩
    · exact ⟨⟨some false, none, none, w.rest⟩,
        by simp [mapWindsurfToCursor, h, truthyOr, hd, hg],
        by simp [mapCursorToWindsurf, h, strTruthy_none]⟩

/-- Witness for the amended C1: the B-side round trip at a consistent
concrete input (`glob` trigger with a glob pattern) reproduces the
trigger. -/
theorem roundTrip_policy_amended_witness :
    ∃ c : CursorFrontMatter,
      mapWindsurfToCursor ⟨"glob", none, some "src/*.js", []⟩ = .ok c ∧
      (mapCursorToWindsurf c).trigger = ("glob" : String) :=
  roundTrip_policy_amended.2 ⟨"glob", none, some "src/*.js", []⟩
    (Or.inr (Or.inl ⟨rfl, by decide⟩))

theorem strData_append (a b : String) : (a ++ b).data = a.data ++ b.data := by
  cases a
  cases b
  rfl

theorem strMk_data (s : String) : String.mk s.data = s := by
  cases s
  rfl

theorem crlfNormAux_append (a b : List Char) :
    a.getLast? ≠ some '\r' → crlfNormAux (a ++ b) = crlfNormAux a ++ crlfNormAux b := by
  induction a using crlfNormAux.induct with
  | case1 => intro _; simp [crlfNormAux]
  | case2 c =>
    intro h
    have hc : c ≠ '\r' := by simpa using h
    cases b with
    | nil => simp [crlfNormAux]
    | cons d t => simp [crlfNormAux, hc]
  | case3 c d t hcd ih =>
    intro h
    obtain ⟨rfl, rfl⟩ := hcd
    cases t with
    | nil => simp [crlfNormAux]
    | cons x xs =>
      have h' : (x :: xs).getLast? ≠ some '\r' := by
        rw [List.getLast?_cons_cons, List.getLast?_cons_cons] at h
        exact h
      have hrec := ih h'
      simp only [List.cons_append] at hrec ⊢
      simp [crlfNormAux, hrec]
  | case4 c d t hcd ih =>
    intro h
    have h' : (d :: t).getLast? ≠ some '\r' := by
      rw [List.getLast?_cons_cons] at h
      exact h
    have hrec := ih h'
    simp only [List.cons_append] at hrec ⊢
    simp [crlfNormAux, hcd, hrec]

theorem crlfNormAux_of_no_cr (l : List Char) :
    '\r' ∉ l → crlfNormAux l = l := by
  induction l using crlfNormAux.induct with
  | case1 => intro _; rfl
  | case2 c => intro _; rfl
  | case3 c d t hcd ih =>
    intro h
    obtain ⟨rfl, -⟩ := hcd
    exact absurd (by simp) h
  | case4 c d t hcd ih =>
    intro h
    have h' : '\r' ∉ d :: t := fun hm => h (List.mem_cons_of_mem c hm)
    have hc : c ≠ '\r' := fun hc => h (hc ▸ List.mem_cons_self c (d :: t))
    simp [crlfNormAux, hcd, ih h']

theorem setKey_ne_nil (m : Mapping) (k : String) (v : JValue) : setKey m k v ≠ [] := by
  unfold setKey
  split_ifs with h
  · intro hc
    rw [List.map_eq_nil_iff] at hc
    subst hc
    simp [List.lookup] at h
  · simp

theorem windsurf_toMapping_ne_nil (w : WindsurfFrontMatter) : w.toMapping ≠ [] := by
  unfold WindsurfFrontMatter.toMapping
  cases w.globs <;> cases w.description <;> exact setKey_ne_nil _ _ _

theorem cursor_toMapping_ne_nil (c : CursorFrontMatter) (b : Bool)
    (h : c.alwaysApply = some b) : c.toMapping ≠ [] := by
  unfold CursorFrontMatter.toMapping
  rw [h]
  cases c.globs <;> cases c.description <;> exact setKey_ne_nil _ _ _

theorem mapWindsurfToCursor_ok_alwaysApply (w : WindsurfFrontMatter) (c : CursorFrontMatter)
    (h : mapWindsurfToCursor w = .ok c) :
    c.alwaysApply = some true ∨ c.alwaysApply = some false := by
  unfold mapWindsurfToCursor at h
  split_ifs at h <;> (injection h with h'; subst h'; simp)

theorem serializeRuleFile_nonempty_body (fm : Mapping) (content : String) (hfm : fm ≠ [])
    (hcr : '\r' ∉ content.data) :
    serializeRuleFile fm content =
      crlfNormalize ("---\n" ++ dumpMapping fm ++ "---\n") ++ ensureTrailingNewline content := by
  have hA : ("---\n" ++ dumpMapping fm ++ "---\n").data.getLast? = some '\n' := by
    have h1 : ("---\n" ++ dumpMapping fm ++ "---\n").data
        = (("---\n" ++ dumpMapping fm).data ++ ['-', '-', '-']) ++ ['\n'] := by
      rw [strData_append]
      simp
    rw [h1]
    exact List.getLast?_concat _
  have hB : '\r' ∉ (ensureTrailingNewline content).data := by
    unfold ensureTrailingNewline
    split_ifs
    · exact hcr
    · rw [strData_append]
      intro hm
      rcases List.mem_append.mp hm with hm | hm
      · exact hcr hm
      · simp at hm
  unfold serializeRuleFile matterStringify
  rw [if_neg (by simpa using hfm)]
  unfold crlfNormalize
  rw [strData_append, crlfNormAux_append _ _ (by rw [hA]; simp),
    crlfNormAux_of_no_cr _ hB]
  rfl

/-- Counterexample to claim C4: a successfully converted document whose
body contains a CRLF sequence does not get its body back byte-for-byte
up to trailing-newline normalization — the serializer rewrites every
CRLF to LF, so an interior chunk of the original body is gone from the
output. -/
theorem convert_body_crlf_cex :
    convertRuleContent "---\ntrigger: manual\n---\nl1\r\nl2" ConversionDirection.wc none =
      .ok "---\nalwaysApply: false\n---\nl1\nl2\n" ∧
    containsSubstr "---\nalwaysApply: false\n---\nl1\nl2\n" "l1\r" = false := by
  decide

/-- Claim C4 as amended: for every successful conversion whose parsed
body contains no carriage-return character, the output is a metadata
header followed by the body unchanged byte-for-byte except that a single
newline is appended when the body does not already end in one; bodies
containing CRLF sequences additionally have them rewritten to LF by the
serializer. -/
theorem convert_preserves_body_amended (src : String) (dir : ConversionDirection)
    (force : Option RuleFormat) (fm : Mapping) (body : String) (res : String)
    (hparse : parseRuleFileContent src = .ok (fm, body))
    (hconv : convertRuleContent src dir force = .ok res)
    (hcr : '\r' ∉ body.data) :
    ∃ hdr, res = hdr ++ ensureTrailingNewline body := by
  unfold convertRuleContent at hconv
  rw [hparse] at hconv
  simp only [] at hconv
  by_cases h1 : force.getD (detectFormat src fm) = RuleFormat.unknown
  · rw [if_pos h1] at hconv
    exact absurd hconv (by simp)
  · rw [if_neg h1] at hconv
    by_cases h2 : dir = ConversionDirection.cw ∧
        force.getD (detectFormat src fm) = RuleFormat.cursor
    · rw [if_pos h2] at hconv
      injection hconv with h'
      refine ⟨crlfNormalize ("---\n" ++
        dumpMapping (mapCursorToWindsurf (asCursorFrontMatter fm)).toMapping ++ "---\n"), ?_⟩
      rw [← h']
      exact serializeRuleFile_nonempty_body _ _ (windsurf_toMapping_ne_nil _) hcr
    · rw [if_neg h2] at hconv
      by_cases h3 : dir = ConversionDirection.wc ∧
          force.getD (detectFormat src fm) = RuleFormat.windsurf
      · rw [if_pos h3] at hconv
        cases hm : mapWindsurfToCursor (asWindsurfFrontMatter fm) with
        | error e =>
          rw [hm] at hconv
          exact absurd hconv (by simp)
        | ok c =>
          rw [hm] at hconv
          injection hconv with h'
          rcases mapWindsurfToCursor_ok_alwaysApply _ _ hm with hb | hb
          · refine ⟨crlfNormalize ("---\n" ++ dumpMapping c.toMapping ++ "---\n"), ?_⟩
            rw [← h']
            exact serializeRuleFile_nonempty_body _ _ (cursor_toMapping_ne_nil _ _ hb) hcr
          · refine ⟨crlfNormalize ("---\n" ++ dumpMapping c.toMapping ++ "---\n"), ?_⟩
            rw [← h']
            exact serializeRuleFile_nonempty_body _ _ (cursor_toMapping_ne_nil _ _ hb) hcr
      · rw [if_neg h3] at hconv
        exact absurd hconv (by simp)

/-- Witness for the amended C4 at a concrete conversion. -/
theorem convert_preserves_body_amended_witness :
    ∃ hdr, "---\nalwaysApply: false\n---\nBody\n" = hdr ++ ensureTrailingNewline "Body" :=
  convert_preserves_body_amended "---\ntrigger: manual\n---\nBody"
    ConversionDirection.wc none [("trigger", JValue.str "manual")] "Body"
    "---\nalwaysApply: false\n---\nBody\n" (by decide) (by decide) (by decide)

theorem dropWhile_head_false (p : Char → Bool) (l : List Char) (c : Char) (t : List Char)
    (h : l.dropWhile p = c :: t) : p c = false := by
  induction l with
  | nil => simp [List.dropWhile] at h
  | cons x xs ih =>
    rw [List.dropWhile_cons] at h
    split_ifs at h with hx
    · exact ih h
    · injection h with h1 h2
      subst h1
      simpa using hx

/-- Counterexample to claim C9: serializing an empty mapping with a body
containing a CRLF does not return the body plus one trailing newline —
the CRLF is rewritten to LF, changing the body's interior. -/
theorem serialize_empty_crlf_cex :
    serializeRuleFile [] "a\r\nb" = "a\nb\n" ∧
    stripTrailingNewlines (serializeRuleFile [] "a\r\nb") ≠ stripTrailingNewlines "a\r\nb" := by
  decide

/-- Claim C9 as amended: for every body string without carriage returns,
serializing with an empty metadata mapping returns exactly the body,
stripped of its trailing newlines, plus exactly one trailing newline: the
output always ends in a newline and never in two (bodies with carriage
returns additionally get CRLF sequences rewritten to LF). -/
theorem serialize_empty_mapping_amended (body : String) (hcr : '\r' ∉ body.data) :
    serializeRuleFile [] body = stripTrailingNewlines body ++ "\n" ∧
    (serializeRuleFile [] body).data.getLast? = some '\n' ∧
    endsInTwoNewlines (serializeRuleFile [] body) = false := by
  have hnc : '\r' ∉ (stripTrailingNewlines body ++ ("\n" : String)).data := by
    rw [strData_append]
    intro hm
    rcases List.mem_append.mp hm with hm | hm
    · apply hcr
      have hm' : '\r' ∈ body.data.reverse.dropWhile (· = '\n') := by
        have : (stripTrailingNewlines body).data
            = (body.data.reverse.dropWhile (· = '\n')).reverse := rfl
        rw [this, List.mem_reverse] at hm
        exact hm
      have hsub := List.dropWhile_sublist (p := (· = '\n')) (l := body.data.reverse)
      have : '\r' ∈ body.data.reverse := hsub.subset hm'
      rwa [List.mem_reverse] at this
    · simp at hm
  have hmain : serializeRuleFile [] body = stripTrailingNewlines body ++ "\n" := by
    unfold serializeRuleFile matterStringify
    rw [if_pos List.isEmpty_nil]
    unfold crlfNormalize
    rw [crlfNormAux_of_no_cr _ hnc, strMk_data]
  refine ⟨hmain, ?_, ?_⟩
  · rw [hmain, strData_append]
    exact List.getLast?_concat _
  · rw [hmain]
    unfold endsInTwoNewlines
    have hdata : (stripTrailingNewlines body ++ ("\n" : String)).data.reverse
        = '\n' :: body.data.reverse.dropWhile (· = '\n') := by
      rw [strData_append, List.reverse_append]
      have h1 : (stripTrailingNewlines body).data
          = (body.data.reverse.dropWhile (· = '\n')).reverse := rfl
      rw [h1, List.reverse_reverse]
      rfl
    rw [hdata]
    cases hY : body.data.reverse.dropWhile (· = '\n') with
    | nil => rfl
    | cons y ys =>
      have hy := dropWhile_head_false (· = '\n') body.data.reverse y ys hY
      simp [hy]

/-- Witness for the amended C9 at a body that already ends in two
newlines. -/
theorem serialize_empty_mapping_amended_witness :
    serializeRuleFile [] "abc\n\n" = stripTrailingNewlines "abc\n\n" ++ "\n" ∧
    (serializeRuleFile [] "abc\n\n").data.getLast? = some '\n' ∧
    endsInTwoNewlines (serializeRuleFile [] "abc\n\n") = false :=
  serialize_empty_mapping_amended "abc\n\n" (by decide)
